import Mathlib

/-
Shallow embedding of the deepagent execution graph of falkenslab/spotifai
(src/deepagent/state.py, plan.py, research.py, chunk.py, agent.py).
The language-model oracle and the graph driver are external collaborators;
oracle outputs enter the stage functions as explicit parameters, and a
stage's returned partial state update is merged into the canonical state
with each field's declared merge rule (the `messages` field uses the
`merge_messages` reducer declared on `AgentState` in state.py; the other
fields are last-write-wins when the update carries them).
-/

namespace DeepAgent

/-- One tool-invocation request attached to an AI message
(langchain `AIMessage.tool_calls` entry, as used by `__need_tools`). -/
structure ToolCall where
  name : String
  args : String
deriving DecidableEq

/-- The message kinds the agent code manipulates: `SystemMessage`,
`HumanMessage`, `AIMessage` (with its `tool_calls` list, which is always
present on an AIMessage, possibly empty) and `ToolMessage`. -/
inductive Message where
  | system (content : String)
  | human (content : String)
  | ai (content : String) (tool_calls : List ToolCall)
  | tool (content : String) (tool_call_id : String)
deriving DecidableEq

/-- state.py: `MESSAGES_REPLACE_SENTINEL = "__REPLACE_MESSAGES__"`. -/
def MESSAGES_REPLACE_SENTINEL : String := "__REPLACE_MESSAGES__"

/-- The test `isinstance(right[0], SystemMessage) and right[0].content ==
MESSAGES_REPLACE_SENTINEL` from state.py `merge_messages`. -/
def isReplaceSentinel : Message → Bool
  | Message.system c => c == MESSAGES_REPLACE_SENTINEL
  | _ => false

/-- state.py `merge_messages(left, right)`: empty `right` keeps `left`;
a leading sentinel system message makes `right[1:]` replace the history;
otherwise the lists are concatenated. -/
def merge_messages (left right : List Message) : List Message :=
  match right with
  | [] => left
  | first :: rest =>
    if isReplaceSentinel first then rest
    else left ++ (first :: rest)

/-- plan.py `Plan`: list of step texts plus the 0-based cursor
`current_step` (pydantic `__init__` normalises a missing cursor to 0,
so after construction the cursor is always a natural number). -/
structure Plan where
  steps : List String
  current_step : Nat
deriving DecidableEq

/-- plan.py `Plan.next_step`: when the cursor is inside the step list,
return the step at the cursor and advance the cursor by one; otherwise
return nothing and leave the plan unchanged.  The Python method mutates
`self`; the embedding returns the read step together with the plan after
the mutation. -/
def Plan.next_step (p : Plan) : Option String × Plan :=
  if h : p.current_step < p.steps.length then
    (some (p.steps.get ⟨p.current_step, h⟩),
     Plan.mk p.steps (p.current_step + 1))
  else
    (none, p)

/-- research.py `Intent`: structured research result, a goal plus notes. -/
structure Intent where
  goal : String
  notes : String
deriving DecidableEq

/-- state.py `AgentState`: message history, optional plan, the scratch
slot (a dict whose only used key is `intent`, embedded as the intent it
holds) and the optional final message. -/
structure AgentState where
  messages : List Message
  plan : Option Plan
  scratch : Option Intent
  final : Option Message
deriving DecidableEq

/-- A stage's returned partial state: each `AgentState` key the returned
dict may or may not carry. -/
structure StateUpdate where
  messages : Option (List Message)
  plan : Option Plan
  scratch : Option Intent
  final : Option Message
deriving DecidableEq

/-- Merge of a stage's returned update into the canonical state: the
`messages` channel uses the `merge_messages` reducer declared on
`AgentState` (state.py, `Annotated[list[AnyMessage], merge_messages]`),
the unannotated channels are overwritten when the update carries them and
kept otherwise. -/
def applyUpdate (s : AgentState) (u : StateUpdate) : AgentState :=
  { messages :=
      match u.messages with
      | none => s.messages
      | some r => merge_messages s.messages r
    plan :=
      match u.plan with
      | none => s.plan
      | some p => some p
    scratch :=
      match u.scratch with
      | none => s.scratch
      | some i => some i
    final :=
      match u.final with
      | none => s.final
      | some m => some m }

/-- chunk.py `ChunkType`. -/
inductive ChunkType where
  | TEXT
  | THINKING
deriving DecidableEq

/-- chunk.py `Chunk`: a typed fragment of caller-facing output. -/
structure Chunk where
  content : String
  type : ChunkType
deriving DecidableEq

/-- plan.py `Plan.__str__` (Python renders the step list with `repr`
quotes around each item; the quoting of individual items is elided here,
no claim depends on the rendering). -/
def Plan.str (p : Plan) : String :=
  "Plan(steps=" ++ toString p.steps ++ ", current_step=" ++
    toString p.current_step ++ ")"

/-- The acknowledgment message appended by `DeepAgent.__plan`:
`AIMessage(content=f"He generado un plan de acción con ... pasos: ...")`. -/
def planAckMessage (p : Plan) : Message :=
  Message.ai ("He generado un plan de acción con " ++
    toString p.steps.length ++ " pasos: " ++ p.str) []

/-- agent.py `DeepAgent.__plan`: the structured-output oracle call either
parses into a `Plan` or raises; the raised parse failure propagates out of
the stage (there is no fallback branch in the source), and on success the
stage returns the parsed plan plus the history with the acknowledgment
appended.  The oracle call's outcome is the `structured` parameter. -/
def planUpdate (s : AgentState) (structured : Except String Plan) :
    Except String StateUpdate :=
  match structured with
  | Except.error e => Except.error e
  | Except.ok plan =>
    Except.ok
      { messages := some (s.messages ++ [planAckMessage plan])
        plan := some plan
        scratch := none
        final := none }

/-- Plan extracted from a planner-stage outcome, for comparison with the
spec's claimed fallback plan. -/
def planOf : Except String StateUpdate → Option Plan
  | Except.ok u => u.plan
  | Except.error _ => none

/-- The fixed default fallback plan exactly as the specification words it
(steps "Analizar la consulta del usuario", "Ejecutar acciones necesarias",
"Proporcionar respuesta", cursor 0); stated from the spec for comparison
with `planUpdate`, which the source defines. -/
def specDefaultPlan : Plan :=
  Plan.mk ["Analizar la consulta del usuario",
           "Ejecutar acciones necesarias",
           "Proporcionar respuesta"] 0

/-- agent.py `DeepAgent.__research`: consume `plan.next_step()`; when a
step was read, the oracle produces the step's `Intent` (the oracle call is
the `oracle` parameter); when no step remains the fixed sentinel intent
`Intent(goal="Ninguno", notes="No hay pasos para investigar.")` is built
without any oracle call.  The returned dict carries the mutated plan and
the scratch slot holding the intent. -/
def researchUpdate (oracle : String → Intent) (p : Plan) : StateUpdate :=
  match p.next_step with
  | (some step, p2) =>
    { messages := none
      plan := some p2
      scratch := some (oracle step)
      final := none }
  | (none, p2) =>
    { messages := none
      plan := some p2
      scratch := some (Intent.mk "Ninguno" "No hay pasos para investigar.")
      final := none }

/-- agent.py `DeepAgent.__summarize`: the oracle condenses the history
into `summary.content` (the `digest` parameter) and the stage returns
`{"messages": [self.system_prompt, self.human_query,
SystemMessage(content=summary.content)]}` — with no leading
`__REPLACE_MESSAGES__` sentinel message. -/
def summarizeUpdate (system_prompt human_query : Message)
    (digest : String) : StateUpdate :=
  { messages := some [system_prompt, human_query, Message.system digest]
    plan := none
    scratch := none
    final := none }

/-- agent.py `DeepAgent.__executor`: the tool-bound oracle answers the
executor prompt (its reply is the `response` parameter) and the stage
returns `{"messages": state.get("messages", []) + [response]}`. -/
def executorUpdate (s : AgentState) (response : Message) : StateUpdate :=
  { messages := some (s.messages ++ [response])
    plan := none
    scratch := none
    final := none }

/-- agent.py `DeepAgent.__need_summarize`:
`len(state.get("messages", [])) > 10`. -/
def need_summarize (messages : List Message) : Bool :=
  decide (10 < messages.length)

/-- agent.py `DeepAgent.__need_tools`: `last = state.get("messages", [])[-1]`
(the Python indexing presupposes a non-empty history, hence the
hypothesis), then `isinstance(last, AIMessage) and hasattr(last,
"tool_calls") and len(last.tool_calls) > 0`; an `AIMessage` always has the
`tool_calls` attribute. -/
def need_tools (messages : List Message) (h : messages ≠ []) : Bool :=
  match messages.getLast h with
  | Message.ai _ tool_calls => decide (0 < tool_calls.length)
  | _ => false

/-- agent.py `DeepAgent.__need_more_steps`:
`plan.current_step < len(plan.steps)`. -/
def need_more_steps (p : Plan) : Bool :=
  decide (p.current_step < p.steps.length)

/-- agent.py `DeepAgent.invoke`, the `on_chat_model_stream` arm of the
event-to-chunk translation: fragments from the `researcher` and `planner`
nodes fall into a `pass` branch (the THINKING chunk construction is
commented out in the source) and produce no chunk; fragments from
`finalizer` become a TEXT chunk with the fragment's content; fragments
from any other node match no case and produce no chunk. -/
def on_chat_model_stream (lg_node : String) (content : String) :
    Option Chunk :=
  if lg_node == "researcher" || lg_node == "planner" then
    none
  else if lg_node == "finalizer" then
    some (Chunk.mk content ChunkType.TEXT)
  else
    none

/-- Repeated researcher invocations, each consuming the plan carried by
the update the stage returned (the driver writes that plan back into the
state between invocations). -/
def iterateResearch (oracle : String → Intent) : Nat → Plan → Plan
  | 0, p => p
  | k + 1, p =>
    match (researchUpdate oracle p).plan with
    | some p2 => iterateResearch oracle k p2
    | none => p

/-- A concrete oracle used for concrete evaluations. -/
def oracle0 : String → Intent := fun _ => Intent.mk "objetivo" "notas"

/-- A concrete rendered system prompt (any content other than the
sentinel). -/
def sysPrompt : Message := Message.system "Eres un asistente experto en Spotify."

/-- A concrete user query message. -/
def humanQuery : Message := Message.human "Pon música de rock"

/-- A concrete 11-message history: system framing, user query and nine
intermediate AI turns (the summarizer is reached exactly when the history
exceeds 10 messages). -/
def msgs11 : List Message :=
  sysPrompt :: humanQuery :: List.replicate 9 (Message.ai "turno intermedio" [])

/-- The agent state holding `msgs11`. -/
def st11 : AgentState :=
  AgentState.mk msgs11 none none none

/-- A concrete small state as the executor sees it after planning and
research. -/
def st2 : AgentState :=
  AgentState.mk [sysPrompt, humanQuery]
    (some (Plan.mk ["paso uno"] 1))
    (some (Intent.mk "objetivo" "notas"))
    none

/-- Concrete 10-message history. -/
def ms10 : List Message := List.replicate 10 (Message.human "m")

/-- Concrete 11-message history of plain user messages. -/
def ms11 : List Message := List.replicate 11 (Message.human "m")

/-- A concrete AI message carrying one tool-invocation request. -/
def aiToolMsg : Message := Message.ai "x" [ToolCall.mk "buscar" "query=rock"]

end DeepAgent

namespace DeepAgent

theorem next_step_lt (p : Plan) (h : p.current_step < p.steps.length) :
    p.next_step =
      (some (p.steps.get ⟨p.current_step, h⟩),
       Plan.mk p.steps (p.current_step + 1)) := by
  unfold Plan.next_step
  rw [dif_pos h]

theorem next_step_ge (p : Plan) (h : p.steps.length ≤ p.current_step) :
    p.next_step = (none, p) := by
  unfold Plan.next_step
  rw [dif_neg (by omega)]

theorem iterateResearch_cursor (oracle : String → Intent)
    (steps : List String) :
    ∀ k i, i + k ≤ steps.length →
      iterateResearch oracle k (Plan.mk steps i) = Plan.mk steps (i + k) := by
  intro k
  induction k with
  | zero =>
    intro i _
    simp [iterateResearch]
  | succ n ih =>
    intro i h
    have hi : (Plan.mk steps i).current_step < (Plan.mk steps i).steps.length := by
      simp only []
      omega
    have h1 := next_step_lt (Plan.mk steps i) hi
    have e : i + (n + 1) = (i + 1) + n := by omega
    rw [e]
    have h2 : iterateResearch oracle (n + 1) (Plan.mk steps i)
        = iterateResearch oracle n (Plan.mk steps (i + 1)) := by
      simp [iterateResearch, researchUpdate, h1]
    rw [h2]
    exact ih (i + 1) (by omega)

/-- C10: `merge_messages` keeps `left` when `right` is empty, drops into
`right` without its first element when that first element is a
SystemMessage whose content is the `__REPLACE_MESSAGES__` sentinel, and
concatenates `left ++ right` otherwise. -/
theorem merge_messages_rule (left right : List Message) :
    (merge_messages left [] = left)
    ∧ (∀ c rest, right = Message.system c :: rest →
        c = MESSAGES_REPLACE_SENTINEL → merge_messages left right = rest)
    ∧ (∀ first rest, right = first :: rest →
        (∀ c, first = Message.system c → c ≠ MESSAGES_REPLACE_SENTINEL) →
        merge_messages left right = left ++ right) := by
  refine ⟨rfl, ?_, ?_⟩
  · intro c rest hr hc
    subst hr
    subst hc
    simp [merge_messages, isReplaceSentinel]
  · intro first rest hr hfirst
    subst hr
    have hsent : isReplaceSentinel first = false := by
      cases first with
      | system c =>
        have := hfirst c rfl
        simp [isReplaceSentinel, this]
      | human c => rfl
      | ai c tcs => rfl
      | tool c i => rfl
    simp [merge_messages, hsent]

/-- Witness for C10 at concrete inputs: a sentinel-headed update replaces
the history, a plain update is appended. -/
theorem merge_messages_rule_witness :
    merge_messages [Message.human "a"]
        (Message.system MESSAGES_REPLACE_SENTINEL :: [Message.human "b"])
      = [Message.human "b"]
    ∧ merge_messages [Message.human "a"] [Message.human "b"]
      = [Message.human "a"] ++ [Message.human "b"] := by
  constructor
  · exact (merge_messages_rule [Message.human "a"]
      (Message.system MESSAGES_REPLACE_SENTINEL :: [Message.human "b"])).2.1
      MESSAGES_REPLACE_SENTINEL [Message.human "b"] rfl rfl
  · exact (merge_messages_rule [Message.human "a"] [Message.human "b"]).2.2
      (Message.human "b") [] rfl (by intro c hc; cases hc)

/-- C6: `need_summarize` holds exactly when the history has strictly more
than 10 messages; in particular it is false at length 10 and true at
length 11. -/
theorem need_summarize_boundary (msgs : List Message) :
    (need_summarize msgs = true ↔ 10 < msgs.length)
    ∧ (msgs.length = 10 → need_summarize msgs = false)
    ∧ (msgs.length = 11 → need_summarize msgs = true) := by
  refine ⟨?_, ?_, ?_⟩
  · simp [need_summarize]
  · intro h
    simp [need_summarize, h]
  · intro h
    simp [need_summarize, h]

/-- Witness for C6: a 10-message history does not trigger summarization,
an 11-message history does. -/
theorem need_summarize_boundary_witness :
    need_summarize ms10 = false ∧ need_summarize ms11 = true := by
  constructor
  · exact (need_summarize_boundary ms10).2.1 (by simp [ms10])
  · exact (need_summarize_boundary ms11).2.2 (by simp [ms11])

/-- C1 (code bug evaluated at the failing input): on an 11-message history
the summarizer's returned update, merged through the `messages` merge rule,
appends its three messages to the existing history (14 messages) instead
of replacing it with exactly 3, because the update lacks the leading
`__REPLACE_MESSAGES__` sentinel that `merge_messages` requires for
replacement. -/
theorem summarize_merge_appends_instead_of_replacing :
    (applyUpdate st11 (summarizeUpdate sysPrompt humanQuery "resumen")).messages
      = msgs11 ++ [sysPrompt, humanQuery, Message.system "resumen"]
    ∧ (applyUpdate st11 (summarizeUpdate sysPrompt humanQuery "resumen")).messages.length
      = 14 := by
  constructor
  · decide
  · decide

/-- C2 counterexample: an unparseable oracle response makes the planner
stage propagate the failure; it does not produce the spec's fixed default
plan. -/
theorem planner_fallback_counterexample :
    planUpdate st2 (Except.error "salida no estructurada")
      = Except.error "salida no estructurada"
    ∧ planOf (planUpdate st2 (Except.error "salida no estructurada"))
      ≠ some specDefaultPlan := by
  constructor
  · rfl
  · decide

/-- C2 amended: the planner stage substitutes no default plan; when the
oracle's output cannot be parsed into a Plan the failure propagates and
aborts the turn, and when it parses, the parsed plan is stored in the
state unchanged. -/
theorem planner_propagates_parse_failure (s : AgentState) (e : String) :
    planUpdate s (Except.error e) = Except.error e
    ∧ ∀ p : Plan, planOf (planUpdate s (Except.ok p)) = some p := by
  exact ⟨rfl, fun _ => rfl⟩

/-- C3 (code bug evaluated at the failing input): the executor returns the
whole prior history plus the response, and the concatenating `messages`
merge rule then duplicates the prior history — a 2-message state ends with
5 messages instead of 3, although `plan`, `scratch` and `final` are left
unchanged. -/
theorem executor_merge_duplicates_history :
    (applyUpdate st2 (executorUpdate st2 (Message.ai "respuesta" []))).messages
      = [sysPrompt, humanQuery, sysPrompt, humanQuery, Message.ai "respuesta" []]
    ∧ (applyUpdate st2 (executorUpdate st2 (Message.ai "respuesta" []))).plan
      = st2.plan
    ∧ (applyUpdate st2 (executorUpdate st2 (Message.ai "respuesta" []))).scratch
      = st2.scratch
    ∧ (applyUpdate st2 (executorUpdate st2 (Message.ai "respuesta" []))).final
      = st2.final := by
  refine ⟨by decide, rfl, rfl, rfl⟩

/-- C4 counterexample: on an exhausted plan the researcher stage stores a
sentinel intent whose strings are the Spanish "Ninguno" / "No hay pasos
para investigar.", not the English "none" / "no steps to investigate"
stated by the claim. -/
theorem researcher_sentinel_strings_counterexample :
    (researchUpdate oracle0 (Plan.mk ["paso uno"] 1)).scratch
      ≠ some (Intent.mk "none" "no steps to investigate") := by
  decide

/-- C4 amended: the researcher stage reads the step at `current_step` and
advances the cursor by one in the same operation; when the cursor has
reached the end of the step list it leaves the plan unchanged, stores the
sentinel Intent with goal "Ninguno" and notes "No hay pasos para
investigar.", and does not invoke the oracle (its result is the same for
every oracle). -/
theorem researcher_consumes_step (oracle : String → Intent) (p : Plan) :
    (∀ h : p.current_step < p.steps.length,
      researchUpdate oracle p
        = StateUpdate.mk none
            (some (Plan.mk p.steps (p.current_step + 1)))
            (some (oracle (p.steps.get ⟨p.current_step, h⟩)))
            none)
    ∧ (p.steps.length ≤ p.current_step →
        researchUpdate oracle p
          = StateUpdate.mk none (some p)
              (some (Intent.mk "Ninguno" "No hay pasos para investigar."))
              none
        ∧ ∀ oracleB : String → Intent,
            researchUpdate oracle p = researchUpdate oracleB p) := by
  constructor
  · intro h
    simp [researchUpdate, next_step_lt p h]
  · intro h
    constructor
    · simp [researchUpdate, next_step_ge p h]
    · intro oracleB
      simp [researchUpdate, next_step_ge p h]

/-- Witness for C4's amended theorem at concrete plans: reading the only
step of a fresh one-step plan advances the cursor to 1 and stores the
oracle's intent; on the exhausted plan the sentinel intent is stored. -/
theorem researcher_consumes_step_witness :
    researchUpdate oracle0 (Plan.mk ["paso uno"] 0)
      = StateUpdate.mk none (some (Plan.mk ["paso uno"] 1))
          (some (oracle0 "paso uno")) none
    ∧ researchUpdate oracle0 (Plan.mk ["paso uno"] 1)
      = StateUpdate.mk none (some (Plan.mk ["paso uno"] 1))
          (some (Intent.mk "Ninguno" "No hay pasos para investigar."))
          none := by
  constructor
  · exact (researcher_consumes_step oracle0 (Plan.mk ["paso uno"] 0)).1
      (by decide)
  · exact ((researcher_consumes_step oracle0 (Plan.mk ["paso uno"] 1)).2
      (by decide)).1

/-- C5: for a plan with N ≥ 1 steps and initial cursor 0, the first N
researcher invocations each advance the cursor by exactly one, the cursor
stays between 0 and N (the step list never changes), `need_more_steps`
stays true for the first N invocations and becomes false exactly after the
N-th, where the cursor equals N. -/
theorem plan_cursor_invariants (oracle : String → Intent)
    (steps : List String) (hN : 1 ≤ steps.length) :
    (∀ k, k ≤ steps.length →
      (iterateResearch oracle k (Plan.mk steps 0)).steps = steps
      ∧ (iterateResearch oracle k (Plan.mk steps 0)).current_step = k)
    ∧ (∀ k, k < steps.length →
      (iterateResearch oracle (k + 1) (Plan.mk steps 0)).current_step
        = (iterateResearch oracle k (Plan.mk steps 0)).current_step + 1
      ∧ need_more_steps (iterateResearch oracle k (Plan.mk steps 0)) = true)
    ∧ need_more_steps (iterateResearch oracle steps.length (Plan.mk steps 0))
      = false := by
  have key : ∀ k, k ≤ steps.length →
      iterateResearch oracle k (Plan.mk steps 0) = Plan.mk steps k := by
    intro k hk
    have := iterateResearch_cursor oracle steps k 0 (by omega)
    simpa using this
  refine ⟨?_, ?_, ?_⟩
  · intro k hk
    rw [key k hk]
    exact ⟨rfl, rfl⟩
  · intro k hk
    constructor
    · rw [key k (by omega), key (k + 1) (by omega)]
    · rw [key k (by omega)]
      simp [need_more_steps]
      omega
  · rw [key steps.length (by omega)]
    simp [need_more_steps]

/-- Witness for C5 on a concrete two-step plan: the cursor goes 0, 1, 2,
`need_more_steps` is true for the first two invocations and false after
the second. -/
theorem plan_cursor_invariants_witness :
    (iterateResearch oracle0 1 (Plan.mk ["a", "b"] 0)).current_step = 1
    ∧ need_more_steps (iterateResearch oracle0 1 (Plan.mk ["a", "b"] 0)) = true
    ∧ need_more_steps (iterateResearch oracle0 2 (Plan.mk ["a", "b"] 0)) = false := by
  have h := plan_cursor_invariants oracle0 ["a", "b"] (by decide)
  exact ⟨(h.1 1 (by decide)).2, (h.2.1 1 (by decide)).2, h.2.2⟩

/-- C7: with a non-empty history, `need_tools` holds exactly when the last
message is an AI (oracle) message whose tool-call list is non-empty; it is
false for an AI message without tool calls and for any non-AI last
message. -/
theorem need_tools_iff (msgs : List Message) (h : msgs ≠ []) :
    need_tools msgs h = true ↔
      ∃ content tool_calls,
        msgs.getLast h = Message.ai content tool_calls ∧ tool_calls ≠ [] := by
  unfold need_tools
  cases hM : msgs.getLast h with
  | system c => simp [hM]
  | human c => simp [hM]
  | ai c tcs =>
    simp only [hM, decide_eq_true_eq, Message.ai.injEq]
    constructor
    · intro hpos
      exact ⟨c, tcs, ⟨rfl, rfl⟩, by
        intro hnil
        rw [hnil] at hpos
        exact Nat.lt_irrefl 0 hpos⟩
    · rintro ⟨c2, t2, ⟨hc, ht⟩, hne⟩
      subst ht
      exact List.length_pos.mpr hne
  | tool c i => simp [hM]

/-- Witness for C7: a history ending in an AI message with one tool call
triggers the tools route. -/
theorem need_tools_iff_witness :
    need_tools [aiToolMsg] (by decide) = true := by
  exact (need_tools_iff [aiToolMsg] (by decide)).mpr
    ⟨"x", [ToolCall.mk "buscar" "query=rock"], by decide, by decide⟩

/-- C9 counterexample: an oracle token fragment from the `planner` node
produces no chunk at all — not a THINKING chunk carrying its content. -/
theorem stream_planner_fragment_counterexample :
    on_chat_model_stream "planner" "hola"
      ≠ some (Chunk.mk "hola" ChunkType.THINKING) := by
  decide

/-- C9 amended: oracle token fragments from the `planner` and `researcher`
nodes are dropped (no chunk is emitted for them), while fragments from the
`finalizer` node are emitted as TEXT chunks carrying the fragment's
content. -/
theorem stream_translation (c : String) :
    on_chat_model_stream "planner" c = none
    ∧ on_chat_model_stream "researcher" c = none
    ∧ on_chat_model_stream "finalizer" c = some (Chunk.mk c ChunkType.TEXT) := by
  refine ⟨rfl, rfl, rfl⟩

end DeepAgent
